import Mathlib

/-!
Shallow embedding of the mentoring-platform web client pages:
the sign-up page (source/pages/signup.tsx), the take-conversation page
(source/pages/conversations/take.tsx) and the conversation-list page
(source/pages/conversations/list.tsx).

Network calls are modelled by passing the server's response as an explicit
argument and recording the calls actually issued in a list; component state
updates become explicit state passing; JavaScript runtime errors (property
access on `undefined` behind a TypeScript non-null assertion) are modelled
with `Except`.
-/

namespace DoNew

/-! ### JavaScript string and regex semantics used by the pages -/

/-- JavaScript regex class `\s` (whitespace), per the ECMAScript WhiteSpace and
LineTerminator productions. -/
def isJsSpace (c : Char) : Bool :=
  c == '\t' || c == '\n' || c == '\x0b' || c == '\x0c' || c == '\r' || c == ' ' ||
  c == ' ' || c == ' ' ||
  ((' ' ≤ c) && (c ≤ ' ')) ||
  c == ' ' || c == ' ' || c == ' ' || c == ' ' ||
  c == '　' || c == '﻿'

/-- Characters that JavaScript regex `.` does NOT match (line terminators). -/
def isLineTerminator (c : Char) : Bool :=
  c == '\n' || c == '\r' || c == ' ' || c == ' '

/-- Semantics of the sign-up name validation regex `^(?!\s*$).+` under
`RegExp.test`: the negative lookahead fails exactly when the whole string is
whitespace (including the empty string), and `.+` then needs the first
character not to be a line terminator. -/
def testNameRegex (s : String) : Bool :=
  match s.toList with
  | [] => false
  | c :: cs => (!((c :: cs).all isJsSpace)) && !(isLineTerminator c)

/-- Semantics of the sign-up email validation regex `^\S+@\S+$` under
`RegExp.test`: no whitespace anywhere, and some `@` occurs with at least one
character strictly before it and one strictly after it. -/
def testEmailRegex (s : String) : Bool :=
  let l := s.toList
  l.all (fun c => !isJsSpace c) && (l.dropLast.drop 1).any (fun c => c == '@')

/-- Semantics of the sign-up password validation regex `^.{6,256}$` under
`RegExp.test`: between 6 and 256 characters, none of which is a line
terminator (JavaScript `.` does not match line terminators). -/
def testPasswordRegex (s : String) : Bool :=
  let l := s.toList
  l.all (fun c => !isLineTerminator c) && decide (6 ≤ l.length) && decide (l.length ≤ 256)

/-- Helper for `strIncludes`: whether the first character list is a prefix of
the second. -/
def listPrefixEq : List Char → List Char → Bool
  | [], _ => true
  | _ :: _, [] => false
  | p :: ps, c :: cs => p == c && listPrefixEq ps cs

/-- JavaScript `String.prototype.includes`: the pattern occurs as a contiguous
substring. -/
def strIncludes (s pat : String) : Bool :=
  (List.range (s.toList.length + 1)).any fun i => listPrefixEq pat.toList (s.toList.drop i)

/-- JavaScript truthiness of an optional string (`undefined` and the empty
string are falsy), used by `if (signUpForm.code)`. -/
def jsTruthy (o : Option String) : Bool :=
  match o with
  | none => false
  | some s => s ≠ ""

/-- Modelled from the spec: the `errors` lookup table in `@/utilities/text` is
not among the source files; the spec describes it as a static lookup table
from server error-code strings to fixed user-facing messages, so each code is
mapped to a fixed message string determined by the code alone. -/
def errorsGet (code : String) : Option String :=
  some ("static-message:" ++ code)

/-! ### Data model (the API record shapes consumed by the pages) -/

/-- The `value` carried by an option's attribute (`option.attribute.value`). -/
structure Attr where
  value : String
deriving DecidableEq

/-- The two kinds of option rendered by `OptionItem`: `'select'` and
`'input'`. -/
inductive OptType where
  | select
  | input
deriving DecidableEq

/-- An option of a question (the API `Option` type; renamed because `Option`
is taken in Lean). The `attribute` field is called `attr` here. -/
structure Opt where
  position : Nat
  type : OptType
  text : String
  attr : Option Attr
deriving DecidableEq

/-- A question of a conversation (the API `Question` type). -/
structure Question where
  id : String
  text : String
  first : Bool
  last : Bool
  options : List Opt
deriving DecidableEq

/-- A conversation (the API `Conversation` type, the fields used by the
pages). -/
structure Conversation where
  id : String
  name : String
  description : String
  tags : List String
  once : Bool
deriving DecidableEq

/-- A response of the wrapped `fetch` utility: either an error object with a
machine-readable `code` and human-readable `message`, or a success payload. -/
inductive ApiResponse (α : Type) where
  | failure (code : String) (message : String)
  | success (value : α)
deriving DecidableEq

/-! ### The network calls the pages can issue -/

/-- The sign-up form state, `Partial<SignUpForm>`: each field is `undefined`
or a string. -/
structure SignUpFormPartial where
  name : Option String := none
  email : Option String := none
  password : Option String := none
  code : Option String := none
deriving DecidableEq

/-- A network request issued by one of the modelled pages, identified by
endpoint and JSON body. -/
inductive Call where
  | signupCall (form : SignUpFormPartial)
  | joinGroup (code : String)
  | getConversation (id : String)
  | getQuestions (id : String)
  | getConversations
  | answer (conversationId : String) (questionId : String)
      (position : Nat) (input : Option String)
deriving DecidableEq

/-! ### The sign-up page (source/pages/signup.tsx) -/

/-- The `field` of a `SignUpFormAction` (`keyof SignUpForm`). -/
inductive SignUpField where
  | name
  | email
  | password
  | code
deriving DecidableEq

/-- The action dispatched to the sign-up form reducer. The TypeScript type
restricts `type` to the literal `'update-field'`, but the reducer's `switch`
has a `default` branch, so `type` is modelled as an arbitrary string. -/
structure SignUpFormAction where
  type : String
  field : SignUpField
  payload : Option String
deriving DecidableEq

/-- Read one field of the partial sign-up form. -/
def getField (s : SignUpFormPartial) : SignUpField → Option String
  | .name => s.name
  | .email => s.email
  | .password => s.password
  | .code => s.code

/-- The computed-property spread that updates the one named field. -/
def setField (s : SignUpFormPartial) : SignUpField → String → SignUpFormPartial
  | .name, v => { s with name := some v }
  | .email, v => { s with email := some v }
  | .password, v => { s with password := some v }
  | .code, v => { s with code := some v }

/-- The sign-up form reducer: on `'update-field'` with a defined payload it
spreads the state with the named field updated; an undefined payload breaks
out of the switch and returns the state; any other action type hits the
`default` branch and returns the state. -/
def reducer (state : SignUpFormPartial) (action : SignUpFormAction) : SignUpFormPartial :=
  if action.type = "update-field" then
    match action.payload with
    | none => state
    | some v => setField state action.field v
  else state

/-- The three user-facing-message branches of the sign-up error handler
(the `switch (error.code)` at the bottom of `signUp`). -/
def signUpErrorMessage (code message : String) : Option String :=
  if code = "improper-payload" then
    if strIncludes message "password" then errorsGet "weak-password"
    else errorsGet "invalid-email-address"
  else if code = "entity-already-exists" then errorsGet "user-already-exists"
  else some message

/-- The observable outcome of one run of the `signUp` handler: the final
error message and loading flag, the network calls issued in order, whether
user data and tokens were stored, the route navigated to, and any
`setTimeout`-scheduled navigations as (delay in ms, route) pairs. -/
structure SignUpResult where
  error : Option String := none
  loading : Bool := true
  calls : List Call := []
  stored : Bool := false
  nav : Option String := none
  timers : List (Nat × String) := []
deriving DecidableEq

/-- The `signUp` handler of the sign-up page. The server's responses to the
account-creation call and the group-join call are passed as arguments;
`redirectTo` is the `redirect` query parameter. -/
def signUp (form : SignUpFormPartial) (redirectTo : Option String)
    (signUpResp : ApiResponse Unit) (joinResp : ApiResponse Unit) : SignUpResult :=
  if !testNameRegex (form.name.getD "") then
    { error := errorsGet "incomplete-input", loading := false }
  else if !testEmailRegex (form.email.getD "") then
    { error := errorsGet "invalid-email-address", loading := false }
  else if !testPasswordRegex (form.password.getD "") then
    { error := errorsGet "weak-password", loading := false }
  else
    match signUpResp with
    | .failure code msg =>
      { error := signUpErrorMessage code msg, loading := false, calls := [.signupCall form] }
    | .success _ =>
      if jsTruthy form.code then
        match joinResp with
        | .failure _ msg =>
          { error := some msg, loading := true, stored := true,
            calls := [.signupCall form, .joinGroup (form.code.getD "")],
            timers := [(2500, "/groups")] }
        | .success _ =>
          { loading := false, stored := true,
            calls := [.signupCall form, .joinGroup (form.code.getD "")],
            nav := some (redirectTo.getD "/") }
      else
        { loading := false, stored := true, calls := [.signupCall form],
          nav := some (redirectTo.getD "/") }

/-- Whether all three validation regexes accept the form (missing fields
read as the empty string via `?? ''`). -/
def formValid (form : SignUpFormPartial) : Bool :=
  testNameRegex (form.name.getD "") && testEmailRegex (form.email.getD "") &&
    testPasswordRegex (form.password.getD "")

/-! ### The take-conversation page (source/pages/conversations/take.tsx) -/

/-- The component-local state of `TakeConversationPage`. -/
structure TakeState where
  currentError : Option String := none
  conversation : Option Conversation := none
  currentQuestion : Option Question := none
  selectedOption : Option Opt := none
deriving DecidableEq

/-- The outcome of the initial `useEffect` of the take page: the state after
both fetch handlers ran, and the calls issued. -/
structure TakeLoadResult where
  state : TakeState
  calls : List Call := []
  timers : List (Nat × String) := []
deriving DecidableEq

/-- The initial `useEffect` of the take page: fetch the conversation and the
question list, store the conversation, and set the current question to the
first element of the list whose `first` flag is set; a failed fetch sets the
error message instead. The two promise chains are independent; their
handlers are applied here in launch order. -/
def initialTakeState (conversationId : String) (convResp : ApiResponse Conversation)
    (qsResp : ApiResponse (List Question)) : TakeLoadResult :=
  let s0 : TakeState := {}
  let s1 :=
    match convResp with
    | .success c => { s0 with conversation := some c }
    | .failure _ msg => { s0 with currentError := some msg }
  let s2 :=
    match qsResp with
    | .success qs => { s1 with currentQuestion := qs.find? fun q => q.first }
    | .failure _ msg => { s1 with currentError := some msg }
  { state := s2, calls := [.getConversation conversationId, .getQuestions conversationId] }

/-- The outcome of one run of the `answerQuestion` handler. -/
structure AnswerResult where
  state : TakeState
  calls : List Call := []
  nav : Option String := none
  timers : List (Nat × String) := []
deriving DecidableEq

/-- The tail of `answerQuestion` from the `fetch` on: issue the answer call
carrying the selected option's `position` and the computed `input`, then
either surface the error message, set the next question, or navigate to the
conversations list. `currentQuestion` and `selectedOption` were reset to
`undefined` just before the call. -/
def answerSubmit (s0 : TakeState) (conv : Conversation) (q : Question) (opt : Opt)
    (inp : Option String) (resp : ApiResponse (Option Question)) : AnswerResult :=
  match resp with
  | .failure _ msg =>
    { state := { s0 with
                 currentError := some msg, currentQuestion := none, selectedOption := none },
      calls := [.answer conv.id q.id opt.position inp] }
  | .success (some next) =>
    { state := { s0 with
                 currentError := none, currentQuestion := some next, selectedOption := none },
      calls := [.answer conv.id q.id opt.position inp] }
  | .success none =>
    { state := { s0 with
                 currentError := none, currentQuestion := none, selectedOption := none },
      calls := [.answer conv.id q.id opt.position inp],
      nav := some "/conversations" }

/-- The `answerQuestion` handler of the take page. The server's response to
the answer submission is passed as an argument. A `TypeError` (non-null
assertion on an absent `conversation`, `currentQuestion` or `attribute`)
aborts the handler before the call is issued and is modelled as `.error`;
the `input` sent is `undefined` for a `'select'` option and
`option.attribute!.value` for an `'input'` option. -/
def answerQuestion (s0 : TakeState) (resp : ApiResponse (Option Question)) :
    Except String AnswerResult :=
  match s0.selectedOption with
  | none =>
    .ok { state := { s0 with currentError := errorsGet "option-was-not-selected" } }
  | some opt =>
    match s0.conversation, s0.currentQuestion with
    | some conv, some q =>
      match opt.type, opt.attr with
      | .select, _ => .ok (answerSubmit s0 conv q opt none resp)
      | .input, some a => .ok (answerSubmit s0 conv q opt (some a.value) resp)
      | .input, none => .error "TypeError: selectedOption.attribute is undefined"
    | _, _ => .error "TypeError: conversation or currentQuestion is undefined"

/-- The JSON body the answer submission carries, as the spec describes it:
the selected option's position, and its attribute value exactly when the
option is of type `'input'`. -/
def selectedInput (opt : Opt) : Option String :=
  match opt.type with
  | .select => none
  | .input => opt.attr.map Attr.value

/-! ### The conversation-list page (source/pages/conversations/list.tsx) -/

/-- The component-local state of `ConversationListPage`. -/
structure ListState where
  currentError : Option String := none
  conversations : Option (List Conversation) := none
deriving DecidableEq

/-- The outcome of the initial `useEffect` of the list page. -/
structure ListLoadResult where
  state : ListState
  calls : List Call := []
  timers : List (Nat × String) := []
deriving DecidableEq

/-- The comparator closure `(a, b) => a.name.localeCompare(b.name)` turned
into the boolean `a ≤ b` relation an ascending sort realises;
`localeCompare` itself is a locale-dependent JavaScript builtin and is
passed in as `lc`. -/
def jsSortLe (lc : String → String → Int) (a b : Conversation) : Bool :=
  lc a.name b.name ≤ 0

/-- `conversations.sort((a, b) => a.name.localeCompare(b.name))`: an
ascending sort of the fetched list under the comparator. -/
def sortConversations (lc : String → String → Int) (cs : List Conversation) :
    List Conversation :=
  cs.mergeSort (jsSortLe lc)

/-- The initial `useEffect` of the list page: fetch the conversations, sort
them ascending by name, and store them; a failed fetch sets the error
message. -/
def loadConversations (lc : String → String → Int)
    (resp : ApiResponse (List Conversation)) : ListLoadResult :=
  match resp with
  | .failure _ msg =>
    { state := { currentError := some msg }, calls := [.getConversations] }
  | .success cs =>
    { state := { conversations := some (sortConversations lc cs) },
      calls := [.getConversations] }

/-- What one row of the conversation table renders: the name and description
cells, the routes of the Take and Edit buttons, whether the Edit button is
visible (the `hidden` class), and the management cells (Tags chips and the
Once column), present exactly when rendered. -/
structure RowView where
  name : String
  description : String
  takeRoute : String
  editRoute : String
  editVisible : Bool
  managementCells : Option (List String × Bool)
deriving DecidableEq

/-- The `ConversationItem` component as render data. -/
def conversationItem (c : Conversation) (groot : Bool) : RowView :=
  { name := c.name
    description := c.description
    takeRoute := "/conversations/" ++ c.id
    editRoute := "/conversations/" ++ c.id ++ "/edit"
    editVisible := groot
    managementCells := if groot then some (c.tags, c.once) else none }

/-- What the conversation-list page renders for a fetched list: the Create
button's visibility, the Tags/Once header columns' visibility, and the rows. -/
structure ListPageView where
  createVisible : Bool
  headerManagement : Bool
  rows : List RowView
deriving DecidableEq

/-- The render output of `ConversationListPage` for a loaded conversation
list. -/
def conversationListPage (cs : List Conversation) (groot : Bool) : ListPageView :=
  { createVisible := groot
    headerManagement := groot
    rows := cs.map (conversationItem · groot) }

/-- The groot-independent content of a row: name, description and the Take
button's route. -/
def rowPublicView (r : RowView) : String × String × String :=
  (r.name, r.description, r.takeRoute)

/-! ### Sample values used by concrete witnesses -/

/-- A sample question without the `first` flag. -/
def q1Sample : Question :=
  { id := "q1", text := "first", first := false, last := false, options := [] }

/-- A sample question carrying the `first` flag. -/
def q2Sample : Question :=
  { id := "q2", text := "second", first := true, last := true, options := [] }

/-- A sample conversation. -/
def convSample : Conversation :=
  { id := "c1", name := "Intro", description := "d", tags := [], once := false }

/-- A sample `'select'` option. -/
def selectOptSample : Opt :=
  { position := 2, type := .select, text := "yes", attr := none }

/-- A sample `'input'` option carrying an attribute value. -/
def inputOptSample : Opt :=
  { position := 3, type := .input, text := "other", attr := some { value := "free text" } }

/-- A form whose password has 9 characters but contains a newline. -/
def newlinePasswordForm : SignUpFormPartial :=
  { name := some "John Doe", email := some "j@d.co", password := some "abcd\nefgh",
    code := none }

/-- A sample filled sign-up form that passes all three validation checks. -/
def formSample : SignUpFormPartial :=
  { name := some "John Doe", email := some "j@d.co", password := some "secret123",
    code := some "join-code" }

/-! ### Claim theorems -/

/-- C10: for every sign-up form state and every `'update-field'` action with a
defined payload, the reducer sets exactly the named field to the payload and
leaves every other field unchanged; with an undefined payload, or with any
other action type, the reducer returns the state completely unchanged. -/
theorem reducer_update_field_frame (s : SignUpFormPartial) (a : SignUpFormAction) :
    (∀ v, a.type = "update-field" → a.payload = some v →
      getField (reducer s a) a.field = some v ∧
      ∀ f, f ≠ a.field → getField (reducer s a) f = getField s f) ∧
    (a.payload = none → reducer s a = s) ∧
    (a.type ≠ "update-field" → reducer s a = s) := by
  obtain ⟨t, fld, p⟩ := a
  refine ⟨?_, ?_, ?_⟩
  · intro v ht hp
    simp only at ht hp
    subst ht hp
    constructor
    · cases fld <;> simp [reducer, getField, setField]
    · intro f hf
      cases fld <;> cases f <;> simp_all [reducer, getField, setField]
  · intro hp
    simp only at hp
    subst hp
    by_cases ht : t = "update-field" <;> simp [reducer, ht]
  · intro ht
    simp only at ht
    simp [reducer, ht]

/-- Witness for C10 at a concrete state and action: updating the email leaves
the name as it was and stores the payload. -/
theorem reducer_update_field_frame_witness :
    getField (reducer { name := some "Ada" }
        { type := "update-field", field := .email, payload := some "a@b.c" })
      SignUpField.email = some "a@b.c" ∧
    getField (reducer { name := some "Ada" }
        { type := "update-field", field := .email, payload := some "a@b.c" })
      SignUpField.name = some "Ada" := by
  have h := reducer_update_field_frame { name := some "Ada" }
    { type := "update-field", field := .email, payload := some "a@b.c" }
  exact ⟨(h.1 "a@b.c" rfl rfl).1, (h.1 "a@b.c" rfl rfl).2 SignUpField.name (by decide)⟩

/-- C8: two runs of the conversation-list page that differ only in the groot
flag render the same rows up to the public view (name, description, Take
route); the Create button, the Tags/Once header columns, the Edit button and
the per-row management cells are visible exactly when groot is true. -/
theorem groot_only_toggles_management_controls (cs : List Conversation) (g g1 g2 : Bool) :
    (conversationListPage cs g1).rows.map rowPublicView
      = (conversationListPage cs g2).rows.map rowPublicView ∧
    (conversationListPage cs g).createVisible = g ∧
    (conversationListPage cs g).headerManagement = g ∧
    (conversationListPage cs g).rows.map RowView.editVisible
      = List.replicate cs.length g ∧
    (conversationListPage cs g).rows.map (fun r => r.managementCells.isSome)
      = List.replicate cs.length g := by
  refine ⟨?_, rfl, rfl, ?_, ?_⟩
  · simp [conversationListPage, List.map_map, Function.comp_def, rowPublicView,
      conversationItem]
  · induction cs with
    | nil => rfl
    | cons c t ih =>
      simpa [conversationListPage, conversationItem, List.replicate_succ]
        using ih
  · induction cs with
    | nil => rfl
    | cons c t ih =>
      cases g <;>
        simpa [conversationListPage, conversationItem, List.replicate_succ]
          using ih

/-- C3: after a successful fetch of the question list, the question initially
rendered is the first element of the list whose `first` flag is set; when no
element has the flag set, no question is rendered. -/
theorem take_page_renders_first_flagged_question (cid : String)
    (convResp : ApiResponse Conversation) (qs : List Question) :
    (initialTakeState cid convResp (.success qs)).state.currentQuestion
      = qs.find? (fun q => q.first) ∧
    (∀ q, qs.find? (fun q => q.first) = some q → q ∈ qs ∧ q.first = true) ∧
    ((∀ q ∈ qs, q.first = false) →
      (initialTakeState cid convResp (.success qs)).state.currentQuestion = none) := by
  have hcur : (initialTakeState cid convResp (.success qs)).state.currentQuestion
      = qs.find? (fun q => q.first) := by
    cases convResp <;> rfl
  refine ⟨hcur, ?_, ?_⟩
  · intro q hq
    exact ⟨List.mem_of_find?_eq_some hq, by simpa using List.find?_some hq⟩
  · intro hnone
    rw [hcur, List.find?_eq_none]
    intro q hq
    simp [hnone q hq]

/-- Witness for C3: with one unflagged and one flagged question in the list,
the flagged one is rendered, belongs to the list and carries the flag. -/
theorem take_page_renders_first_flagged_question_witness :
    q2Sample ∈ [q1Sample, q2Sample] ∧ q2Sample.first = true :=
  (take_page_renders_first_flagged_question "c1" (.failure "entity-not-found" "oops")
      [q1Sample, q2Sample]).2.1 q2Sample (by decide)

/-- C2: when no option is selected, `answerQuestion` sets the
option-was-not-selected message, issues no network call and leaves the
current question unchanged; the submission call is only ever made when an
option is selected. -/
theorem answer_question_requires_selected_option (s : TakeState)
    (resp : ApiResponse (Option Question)) :
    (s.selectedOption = none →
      answerQuestion s resp
        = .ok { state := { s with currentError := errorsGet "option-was-not-selected" },
                calls := [], nav := none, timers := [] }) ∧
    (∀ r, answerQuestion s resp = .ok r → s.selectedOption = none →
      r.state.currentQuestion = s.currentQuestion ∧ r.calls = [] ∧
      r.state.currentError = errorsGet "option-was-not-selected") ∧
    (∀ r, answerQuestion s resp = .ok r → r.calls ≠ [] →
      s.selectedOption.isSome = true) := by
  have hnone : s.selectedOption = none →
      answerQuestion s resp
        = .ok { state := { s with currentError := errorsGet "option-was-not-selected" },
                calls := [], nav := none, timers := [] } := by
    intro h
    simp [answerQuestion, h]
  refine ⟨hnone, ?_, ?_⟩
  · intro r hr h
    rw [hnone h] at hr
    cases hr
    exact ⟨rfl, rfl, rfl⟩
  · intro r hr hcalls
    cases h : s.selectedOption with
    | none =>
      rw [hnone h] at hr
      cases hr
      simp at hcalls
    | some opt => rfl

/-- Witness for C2 at a concrete state with no selected option: the handler
returns the not-selected error, an empty call list, and the question it was
given. -/
theorem answer_question_requires_selected_option_witness :
    answerQuestion { currentQuestion := some q2Sample } (.success none)
      = .ok { state := { currentError := errorsGet "option-was-not-selected",
                         currentQuestion := some q2Sample },
              calls := [], nav := none, timers := [] } :=
  (answer_question_requires_selected_option { currentQuestion := some q2Sample }
      (.success none)).1 rfl

/-- C1: with an option selected (and the conversation, question and, for an
input option, its attribute present), `answerQuestion` issues exactly one
submission carrying the selected option's position and, as input, the
attribute value for an `'input'` option and nothing for a `'select'` option;
on a success response it sets the current question to the returned next
question when present, and otherwise navigates to the conversations list. -/
theorem answer_question_submits_selection (s : TakeState) (conv : Conversation)
    (q : Question) (opt : Opt) (next : Option Question)
    (hc : s.conversation = some conv) (hq : s.currentQuestion = some q)
    (hs : s.selectedOption = some opt)
    (ha : opt.type = OptType.input → opt.attr.isSome = true) :
    ∃ r, answerQuestion s (.success next) = .ok r ∧
      r.calls = [Call.answer conv.id q.id opt.position (selectedInput opt)] ∧
      (opt.type = OptType.select → selectedInput opt = none) ∧
      (∀ a, opt.type = OptType.input → opt.attr = some a →
        selectedInput opt = some a.value) ∧
      (∀ nq, next = some nq → r.state.currentQuestion = some nq ∧ r.nav = none) ∧
      (next = none →
        r.nav = some "/conversations" ∧ r.state.currentQuestion = none) := by
  refine ⟨answerSubmit s conv q opt (selectedInput opt) (.success next), ?_, ?_, ?_, ?_, ?_, ?_⟩
  · cases hot : opt.type with
    | select => simp [answerQuestion, hc, hq, hs, hot, selectedInput]
    | input =>
      obtain ⟨a, hattr⟩ := Option.isSome_iff_exists.mp (ha hot)
      simp [answerQuestion, hc, hq, hs, hot, hattr, selectedInput]
  · cases next <;> rfl
  · intro hot
    simp [selectedInput, hot]
  · intro a hot hattr
    simp [selectedInput, hot, hattr]
  · intro nq hnq
    subst hnq
    exact ⟨rfl, rfl⟩
  · intro hnq
    subst hnq
    exact ⟨rfl, rfl⟩

/-- Witness for C1 at a concrete state: selecting the sample input option of
the sample question sends its position and attribute value, and the returned
next question becomes current. -/
theorem answer_question_submits_selection_witness :
    ∃ r, answerQuestion
        { conversation := some convSample, currentQuestion := some q2Sample,
          selectedOption := some inputOptSample }
        (.success (some q1Sample)) = .ok r ∧
      r.calls = [Call.answer convSample.id q2Sample.id inputOptSample.position
        (selectedInput inputOptSample)] ∧
      (inputOptSample.type = OptType.select → selectedInput inputOptSample = none) ∧
      (∀ a, inputOptSample.type = OptType.input → inputOptSample.attr = some a →
        selectedInput inputOptSample = some a.value) ∧
      (∀ nq, (some q1Sample : Option Question) = some nq →
        r.state.currentQuestion = some nq ∧ r.nav = none) ∧
      ((some q1Sample : Option Question) = none →
        r.nav = some "/conversations" ∧ r.state.currentQuestion = none) :=
  answer_question_submits_selection
    { conversation := some convSample, currentQuestion := some q2Sample,
      selectedOption := some inputOptSample }
    convSample q2Sample inputOptSample (some q1Sample) rfl rfl rfl (by decide)

/-- C9: for every successfully fetched conversation list and every comparator
realising `localeCompare` that is transitive and total on the resulting
le-relation, the list the page stores (and renders) is a permutation of the
fetched list that is pairwise sorted ascending by name under the comparator,
whatever order the server returned. -/
theorem conversation_list_sorted_by_name (lc : String → String → Int)
    (cs : List Conversation)
    (htrans : ∀ a b c : Conversation,
      jsSortLe lc a b → jsSortLe lc b c → jsSortLe lc a c)
    (htotal : ∀ a b : Conversation, jsSortLe lc a b || jsSortLe lc b a) :
    ∃ l, (loadConversations lc (.success cs)).state.conversations = some l ∧
      l.Perm cs ∧ l.Pairwise (fun a b => lc a.name b.name ≤ 0) := by
  refine ⟨sortConversations lc cs, rfl, List.mergeSort_perm cs _, ?_⟩
  have h := List.sorted_mergeSort htrans htotal cs
  exact h.imp fun hab => by simpa [jsSortLe] using hab

/-- Witness for C9 with the constant comparator (every pair compares equal)
on a two-element list. -/
theorem conversation_list_sorted_by_name_witness :
    ∃ l, (loadConversations (fun _ _ => 0)
        (.success [convSample, convSample])).state.conversations = some l ∧
      l.Perm [convSample, convSample] ∧
      l.Pairwise (fun a b => (fun (_ _ : String) => (0 : Int)) a.name b.name ≤ 0) :=
  conversation_list_sorted_by_name (fun _ _ => 0) [convSample, convSample]
    (fun a b c h1 h2 => by simp [jsSortLe])
    (fun a b => by simp [jsSortLe])

/-- C5 (amended): the account-creation call is made if and only if the name
matches the non-blank pattern, the email matches the pattern requiring an
`@` between non-space characters, and the password matches `^.{6,256}$`
(6 to 256 characters, none a line terminator); the checks run in that order
on the fields defaulted to empty strings, and the first failing check sets
its specific message and stops with no network call. -/
theorem signup_validation_gates_account_creation (form : SignUpFormPartial)
    (redirect : Option String) (sresp jresp : ApiResponse Unit) :
    (Call.signupCall form ∈ (signUp form redirect sresp jresp).calls ↔
      (testNameRegex (form.name.getD "") = true ∧
       testEmailRegex (form.email.getD "") = true ∧
       testPasswordRegex (form.password.getD "") = true)) ∧
    (testNameRegex (form.name.getD "") = false →
      (signUp form redirect sresp jresp).error = errorsGet "incomplete-input" ∧
      (signUp form redirect sresp jresp).calls = []) ∧
    (testNameRegex (form.name.getD "") = true →
      testEmailRegex (form.email.getD "") = false →
      (signUp form redirect sresp jresp).error = errorsGet "invalid-email-address" ∧
      (signUp form redirect sresp jresp).calls = []) ∧
    (testNameRegex (form.name.getD "") = true →
      testEmailRegex (form.email.getD "") = true →
      testPasswordRegex (form.password.getD "") = false →
      (signUp form redirect sresp jresp).error = errorsGet "weak-password" ∧
      (signUp form redirect sresp jresp).calls = []) := by
  by_cases hn : testNameRegex (form.name.getD "") = true
  · by_cases he : testEmailRegex (form.email.getD "") = true
    · by_cases hp : testPasswordRegex (form.password.getD "") = true
      · refine ⟨?_, by simp [hn], by simp [he], by simp [hp]⟩
        simp only [hn, he, hp, and_self, iff_true]
        cases sresp with
        | failure code msg => simp [signUp, hn, he, hp]
        | success v =>
          by_cases hcode : jsTruthy form.code = true <;>
            cases jresp <;> simp [signUp, hn, he, hp, hcode]
      · have hp' : testPasswordRegex (form.password.getD "") = false := by
          simpa using hp
        refine ⟨?_, by simp [hn], by simp [he], fun _ _ _ => ?_⟩
        · simp [signUp, hn, he, hp', hp]
        · exact ⟨by simp [signUp, hn, he, hp'], by simp [signUp, hn, he, hp']⟩
    · have he' : testEmailRegex (form.email.getD "") = false := by simpa using he
      refine ⟨?_, by simp [hn], fun _ _ => ?_, fun _ h _ => absurd h he⟩
      · simp [signUp, hn, he', he]
      · exact ⟨by simp [signUp, hn, he'], by simp [signUp, hn, he']⟩
  · have hn' : testNameRegex (form.name.getD "") = false := by simpa using hn
    refine ⟨?_, fun _ => ?_, fun h _ => absurd h hn, fun h _ _ => absurd h hn⟩
    · simp [signUp, hn', hn]
    · exact ⟨by simp [signUp, hn'], by simp [signUp, hn']⟩

/-- Witness for C5: the sample form passes validation, so its account-creation
call is issued. -/
theorem signup_validation_gates_account_creation_witness :
    Call.signupCall formSample
      ∈ (signUp formSample none (.success ()) (.success ())).calls :=
  ((signup_validation_gates_account_creation formSample none (.success ())
      (.success ())).1).mpr (by decide)

/-- Counterexample to C5 as stated: a password of 9 characters (within 6..256)
containing a newline is rejected by `^.{6,256}$`, so the weak-password
message is set and no account-creation call is made although every condition
of the claim holds. -/
theorem signup_length_valid_password_rejected :
    testNameRegex "John Doe" = true ∧ testEmailRegex "j@d.co" = true ∧
    6 ≤ ("abcd\nefgh" : String).length ∧ ("abcd\nefgh" : String).length ≤ 256 ∧
    (signUp newlinePasswordForm none (.success ()) (.success ())).calls = [] ∧
    (signUp newlinePasswordForm none (.success ()) (.success ())).error
      = errorsGet "weak-password" := by
  refine ⟨by decide, by decide, by decide, by decide, by decide, by decide⟩

/-- C4 (amended): for an error response to the sign-up call, the displayed
message is `signUpErrorMessage` of the server's code and message:
`entity-already-exists` maps to the fixed user-already-exists lookup message,
any code other than `improper-payload` and `entity-already-exists` displays
the server's message verbatim, and `improper-payload` additionally branches
on whether the server's human-readable message contains `password`, choosing
the weak-password or the invalid-email-address lookup message. -/
theorem signup_error_code_mapping (form : SignUpFormPartial) (redirect : Option String)
    (jresp : ApiResponse Unit) (code msg : String)
    (hv : formValid form = true) :
    ((signUp form redirect (.failure code msg) jresp).error
      = signUpErrorMessage code msg) ∧
    (code = "entity-already-exists" →
      (signUp form redirect (.failure code msg) jresp).error
        = errorsGet "user-already-exists") ∧
    (code ≠ "improper-payload" → code ≠ "entity-already-exists" →
      (signUp form redirect (.failure code msg) jresp).error = some msg) ∧
    (code = "improper-payload" → strIncludes msg "password" = true →
      (signUp form redirect (.failure code msg) jresp).error
        = errorsGet "weak-password") ∧
    (code = "improper-payload" → strIncludes msg "password" = false →
      (signUp form redirect (.failure code msg) jresp).error
        = errorsGet "invalid-email-address") := by
  simp only [formValid, Bool.and_eq_true] at hv
  obtain ⟨⟨hn, he⟩, hp⟩ := hv
  have hmain : (signUp form redirect (.failure code msg) jresp).error
      = signUpErrorMessage code msg := by
    simp [signUp, hn, he, hp]
  refine ⟨hmain, ?_, ?_, ?_, ?_⟩
  · intro hcode
    rw [hmain]
    simp [signUpErrorMessage, hcode]
  · intro h1 h2
    rw [hmain]
    simp [signUpErrorMessage, h1, h2]
  · intro hcode hinc
    rw [hmain]
    simp [signUpErrorMessage, hcode, hinc]
  · intro hcode hinc
    rw [hmain]
    simp [signUpErrorMessage, hcode, hinc]

/-- Witness for C4 at a concrete form and error response: an unknown code
displays the server message verbatim. -/
theorem signup_error_code_mapping_witness :
    (signUp formSample none (.failure "network-error" "socket closed")
      (.success ())).error = some "socket closed" :=
  (signup_error_code_mapping formSample none (.success ()) "network-error"
      "socket closed" (by decide)).2.2.1 (by decide) (by decide)

/-- Counterexample to C4 as stated: two error responses with the same code
`improper-payload` but different human-readable messages display different
user-facing messages, so the mapping does depend on the content of the
server's message. -/
theorem signup_error_mapping_depends_on_message_content :
    (signUp formSample none
        (.failure "improper-payload" "the given password is too weak")
        (.success ())).error ≠
    (signUp formSample none
        (.failure "improper-payload" "the given email address is invalid")
        (.success ())).error := by
  decide

/-- Helper: the submit step always issues exactly the one answer call, never
schedules a timer, and surfaces the server's error message on a failure
response. -/
theorem answerSubmit_shape (s0 : TakeState) (conv : Conversation) (q : Question)
    (opt : Opt) (inp : Option String) (resp : ApiResponse (Option Question)) :
    (answerSubmit s0 conv q opt inp resp).calls
      = [Call.answer conv.id q.id opt.position inp] ∧
    (answerSubmit s0 conv q opt inp resp).timers = [] ∧
    (∀ code msg, resp = .failure code msg →
      (answerSubmit s0 conv q opt inp resp).state.currentError = some msg) := by
  cases resp with
  | failure c m => exact ⟨rfl, rfl, fun code msg h => by cases h; rfl⟩
  | success v => cases v <;> exact ⟨rfl, rfl, fun code msg h => nomatch h⟩

/-- Helper: a run of `answerQuestion` that returns normally issues at most
one call, schedules no timer, and surfaces the server's error message
whenever the call was actually made and failed. -/
theorem answerQuestion_ok_shape (s : TakeState) (resp : ApiResponse (Option Question))
    (r : AnswerResult) (h : answerQuestion s resp = .ok r) :
    (r.calls = [] ∨ ∃ c, r.calls = [c]) ∧ r.timers = [] ∧
    (∀ code msg, resp = .failure code msg → r.calls ≠ [] →
      r.state.currentError = some msg) := by
  cases hso : s.selectedOption with
  | none =>
    simp only [answerQuestion, hso] at h
    cases h
    exact ⟨Or.inl rfl, rfl, fun code msg _ hc => absurd rfl hc⟩
  | some opt =>
    cases hc : s.conversation with
    | none => simp [answerQuestion, hso, hc] at h
    | some conv =>
      cases hq : s.currentQuestion with
      | none => simp [answerQuestion, hso, hc, hq] at h
      | some q =>
        cases hot : opt.type with
        | select =>
          simp only [answerQuestion, hso, hc, hq, hot] at h
          cases h
          obtain ⟨h1, h2, h3⟩ := answerSubmit_shape s conv q opt none resp
          exact ⟨Or.inr ⟨_, h1⟩, h2, fun code msg hr _ => h3 code msg hr⟩
        | input =>
          cases hattr : opt.attr with
          | none => simp [answerQuestion, hso, hc, hq, hot, hattr] at h
          | some a =>
            simp only [answerQuestion, hso, hc, hq, hot, hattr] at h
            cases h
            obtain ⟨h1, h2, h3⟩ := answerSubmit_shape s conv q opt (some a.value) resp
            exact ⟨Or.inr ⟨_, h1⟩, h2, fun code msg hr _ => h3 code msg hr⟩

/-- Helper: the sign-up handler issues no call, just the account-creation
call, or the account-creation call followed by the group-join call. -/
theorem signUp_calls_cases (form : SignUpFormPartial) (redirect : Option String)
    (sresp jresp : ApiResponse Unit) :
    (signUp form redirect sresp jresp).calls = [] ∨
    (signUp form redirect sresp jresp).calls = [.signupCall form] ∨
    (signUp form redirect sresp jresp).calls
      = [.signupCall form, .joinGroup (form.code.getD "")] := by
  unfold signUp
  repeat' split
  all_goals simp

/-- Helper: the sign-up handler schedules either no timer, or exactly the one
2500 ms navigation to the groups page, the latter only when validation
passed, a join code was supplied, account creation succeeded and the join
call failed. -/
theorem signUp_timers_cases (form : SignUpFormPartial) (redirect : Option String)
    (sresp jresp : ApiResponse Unit) :
    (signUp form redirect sresp jresp).timers = [] ∨
    ((signUp form redirect sresp jresp).timers = [(2500, "/groups")] ∧
      formValid form = true ∧ jsTruthy form.code = true ∧
      sresp = .success () ∧ ∃ c m, jresp = .failure c m) := by
  unfold signUp
  split
  · exact Or.inl rfl
  · split
    · exact Or.inl rfl
    · split
      · exact Or.inl rfl
      · rename_i hn he hp
        split
        · exact Or.inl rfl
        · rename_i v
          split
          · split
            · rename_i hcode c m
              refine Or.inr ⟨rfl, ?_, by assumption, by cases v; rfl, c, m, rfl⟩
              simp only [Bool.not_eq_true] at hn he hp
              simp [formValid, Bool.not_eq_false] at hn he hp ⊢
              exact ⟨⟨hn, he⟩, hp⟩
            · exact Or.inl rfl
          · exact Or.inl rfl

/-- C6: no modelled operation ever issues a second attempt of a call (every
call list is duplicate-free, and each operation issues its call at most
once), and a failed call surfaces its message: the conversation-list fetch,
the conversation fetch and the question-list fetch set the server's message;
a failed answer submission sets the server's message; a failed sign-up call
sets the mapped message and stops after the single call; a failed group-join
call sets the server's message. -/
theorem errors_are_terminal_no_retry (form : SignUpFormPartial)
    (redirect : Option String) (sresp jresp : ApiResponse Unit)
    (lc : String → String → Int) (lresp : ApiResponse (List Conversation))
    (cid : String) (cresp : ApiResponse Conversation)
    (qresp : ApiResponse (List Question)) (qs : List Question)
    (s : TakeState) (aresp : ApiResponse (Option Question)) (code msg : String) :
    ((signUp form redirect sresp jresp).calls.Nodup) ∧
    ((loadConversations lc lresp).calls.Nodup) ∧
    ((initialTakeState cid cresp qresp).calls.Nodup) ∧
    (∀ r, answerQuestion s aresp = .ok r → r.calls.Nodup) ∧
    ((loadConversations lc (.failure code msg)).state.currentError = some msg) ∧
    ((initialTakeState cid cresp (.failure code msg)).state.currentError = some msg) ∧
    ((initialTakeState cid (.failure code msg) (.success qs)).state.currentError
      = some msg) ∧
    (∀ r, answerQuestion s (.failure code msg) = .ok r → r.calls ≠ [] →
      r.state.currentError = some msg) ∧
    (formValid form = true →
      (signUp form redirect (.failure code msg) jresp).calls = [.signupCall form] ∧
      (signUp form redirect (.failure code msg) jresp).error
        = signUpErrorMessage code msg) ∧
    (formValid form = true → jsTruthy form.code = true →
      (signUp form redirect (.success ()) (.failure code msg)).calls
        = [.signupCall form, .joinGroup (form.code.getD "")] ∧
      (signUp form redirect (.success ()) (.failure code msg)).error = some msg) := by
  refine ⟨?_, ?_, ?_, ?_, rfl, ?_, ?_, ?_, ?_, ?_⟩
  · rcases signUp_calls_cases form redirect sresp jresp with h | h | h <;> simp [h]
  · cases lresp <;> simp [loadConversations]
  · cases cresp <;> cases qresp <;> simp [initialTakeState]
  · intro r hr
    rcases (answerQuestion_ok_shape s aresp r hr).1 with h | ⟨c, h⟩ <;> simp [h]
  · cases cresp <;> rfl
  · rfl
  · intro r hr hne
    exact (answerQuestion_ok_shape s (.failure code msg) r hr).2.2 code msg rfl hne
  · intro hv
    simp only [formValid, Bool.and_eq_true] at hv
    obtain ⟨⟨hn, he⟩, hp⟩ := hv
    exact ⟨by simp [signUp, hn, he, hp], by simp [signUp, hn, he, hp]⟩
  · intro hv hcode
    simp only [formValid, Bool.and_eq_true] at hv
    obtain ⟨⟨hn, he⟩, hp⟩ := hv
    exact ⟨by simp [signUp, hn, he, hp, hcode], by simp [signUp, hn, he, hp, hcode]⟩

/-- Witness for C6: a failed sign-up call at the sample form issues exactly
the one account-creation call and maps the error code to the user-facing
message. -/
theorem errors_are_terminal_no_retry_witness :
    (signUp formSample none (.failure "entity-already-exists" "user exists")
        (.success ())).calls = [.signupCall formSample] ∧
    (signUp formSample none (.failure "entity-already-exists" "user exists")
        (.success ())).error
      = signUpErrorMessage "entity-already-exists" "user exists" :=
  (errors_are_terminal_no_retry formSample none
      (.failure "entity-already-exists" "user exists") (.success ())
      (fun _ _ => 0) (.success []) "c1" (.success convSample) (.success []) []
      {} (.success none) "entity-already-exists" "user exists").2.2.2.2.2.2.2.2.1
    (by decide)

/-- C7: when the group-join call made after a successful sign-up fails, the
handler shows the join error message and schedules exactly one navigation,
to the groups page after 2500 ms, without navigating to the redirect target;
and this is the only path in any modelled operation that schedules a
time-delayed action. -/
theorem delayed_redirect_only_after_join_error (form : SignUpFormPartial)
    (redirect : Option String) (sresp jresp : ApiResponse Unit)
    (lc : String → String → Int) (lresp : ApiResponse (List Conversation))
    (cid : String) (cresp : ApiResponse Conversation)
    (qresp : ApiResponse (List Question))
    (s : TakeState) (aresp : ApiResponse (Option Question)) (code msg : String) :
    (formValid form = true → jsTruthy form.code = true →
      (signUp form redirect (.success ()) (.failure code msg)).timers
        = [(2500, "/groups")] ∧
      (signUp form redirect (.success ()) (.failure code msg)).nav = none ∧
      (signUp form redirect (.success ()) (.failure code msg)).error = some msg) ∧
    ((signUp form redirect sresp jresp).timers ≠ [] →
      (signUp form redirect sresp jresp).timers = [(2500, "/groups")] ∧
      formValid form = true ∧ jsTruthy form.code = true ∧
      sresp = .success () ∧ ∃ c m, jresp = .failure c m) ∧
    ((loadConversations lc lresp).timers = []) ∧
    ((initialTakeState cid cresp qresp).timers = []) ∧
    (∀ r, answerQuestion s aresp = .ok r → r.timers = []) := by
  refine ⟨?_, ?_, ?_, ?_, ?_⟩
  · intro hv hcode
    simp only [formValid, Bool.and_eq_true] at hv
    obtain ⟨⟨hn, he⟩, hp⟩ := hv
    exact ⟨by simp [signUp, hn, he, hp, hcode], by simp [signUp, hn, he, hp, hcode],
      by simp [signUp, hn, he, hp, hcode]⟩
  · intro hne
    rcases signUp_timers_cases form redirect sresp jresp with h | h
    · exact absurd h hne
    · exact h
  · cases lresp <;> rfl
  · cases cresp <;> cases qresp <;> rfl
  · intro r hr
    exact (answerQuestion_ok_shape s aresp r hr).2.1

/-- Witness for C7: at the sample form with a failed join call, the handler
schedules the 2500 ms groups-page navigation and does not navigate. -/
theorem delayed_redirect_only_after_join_error_witness :
    (signUp formSample none (.success ()) (.failure "entity-not-found" "no code")).timers
      = [(2500, "/groups")] ∧
    (signUp formSample none (.success ()) (.failure "entity-not-found" "no code")).nav
      = none ∧
    (signUp formSample none (.success ()) (.failure "entity-not-found" "no code")).error
      = some "no code" :=
  (delayed_redirect_only_after_join_error formSample none (.success ())
      (.failure "entity-not-found" "no code") (fun _ _ => 0) (.success []) "c1"
      (.success convSample) (.success []) {} (.success none) "entity-not-found"
      "no code").1 (by decide) (by decide)

end DoNew
